import Mathlib

/-!
Shallow embedding of the performance aggregation core of
`src/js/performance.js` (a betting-dashboard front end), together with
theorems about it.  JavaScript numbers are modelled as rationals (`ℚ`),
so sums and divisions are exact; missing/null numeric fields are
modelled as `Option ℚ` and defaulted to `0` exactly where the source
writes `x || 0`.  The source distinguishes `wasCorrect === null` from
an absent (`undefined`) field, so `wasCorrect` is modelled by a
four-valued inductive type.
-/

namespace Prophet

/-- The possible states of the `wasCorrect` field of a record coming
from the API: JavaScript `true`, `false`, `null`, or the field being
absent (`undefined`). -/
inductive WasCorrect where
  | wTrue
  | wFalse
  | wNull
  | wUndefined
deriving DecidableEq, Repr

/-- A bet record as consumed by `updateSummary` in
`src/js/performance.js`: `recommendedWager` and `profitLoss` may be
missing (`none`), `wasCorrect` is four-valued, `isTopPick` selects the
cohort. -/
structure BetRecord where
  recommendedWager : Option ℚ
  profitLoss : Option ℚ
  wasCorrect : WasCorrect
  isTopPick : Bool
deriving DecidableEq, Repr

/-- JavaScript `x || 0` applied to a possibly-missing numeric field. -/
def orZero (x : Option ℚ) : ℚ := x.getD 0

/-- `calculateROI` from `src/js/performance.js` (lines 164-168):
`(profitLoss / wager) * 100`, with `wager === 0` defined as `0`. -/
def calculateROI (profitLoss wager : ℚ) : ℚ :=
  if wager = 0 then 0 else profitLoss / wager * 100

/-- `calculateWinRate` from `src/js/performance.js` (lines 179-183):
`wins / totalBets`, with `totalBets === 0` defined as `0`. -/
def calculateWinRate (wins totalBets : ℚ) : ℚ :=
  if totalBets = 0 then 0 else wins / totalBets

/-- JavaScript `Math.round`: round half toward positive infinity. -/
def jsRound (x : ℚ) : ℤ := ⌊x + 1 / 2⌋

/-- Sign classes used for display colouring. `neutral` stands for
"no colour class added". -/
inductive SignClass where
  | positive
  | negative
  | neutral
deriving DecidableEq, Repr

/-- `classifySign` as the spec describes it: `value > 0` positive,
`value < 0` negative, `value == 0` neutral. -/
def classifySign (value : ℚ) : SignClass :=
  if value > 0 then SignClass.positive
  else if value < 0 then SignClass.negative
  else SignClass.neutral

/-- The weekly summary profit/loss colouring in `updateSummary`
(lines 289-294): add `positive` when `> 0`, `negative` when `< 0`,
no class otherwise. -/
def weeklyPLColor (value : ℚ) : SignClass :=
  if value > 0 then SignClass.positive
  else if value < 0 then SignClass.negative
  else SignClass.neutral

/-- The all-time summary profit/loss colouring in
`loadPerformanceMetricsInternal` (line 432):
`totalPL >= 0 ? 'positive' : 'negative'`. -/
def allTimePLColor (value : ℚ) : SignClass :=
  if value ≥ 0 then SignClass.positive else SignClass.negative

/-- Accumulator of the first (overall) pass of `updateSummary`
(lines 255-278): `totalWagered`, `wins`, `losses`, `pendingBets`,
`totalProfitLoss`, `completedWager`, all starting at `0`. -/
structure OverallAcc where
  totalWagered : ℚ
  wins : ℕ
  losses : ℕ
  pendingBets : ℕ
  totalProfitLoss : ℚ
  completedWager : ℚ
deriving DecidableEq, Repr

/-- The all-zero initial overall accumulator. -/
def OverallAcc.init : OverallAcc :=
  { totalWagered := 0, wins := 0, losses := 0, pendingBets := 0
    totalProfitLoss := 0, completedWager := 0 }

/-- One iteration of the first `recommendations.forEach` in
`updateSummary` (lines 263-278): always add the wager to
`totalWagered`; on `wasCorrect === true` count a win and fold the
profit/loss and wager into the completed totals; on
`wasCorrect === false` likewise a loss; anything else is pending. -/
def overallStep (acc : OverallAcc) (rec : BetRecord) : OverallAcc :=
  let wager := orZero rec.recommendedWager
  let acc1 := { acc with totalWagered := acc.totalWagered + wager }
  match rec.wasCorrect with
  | WasCorrect.wTrue =>
      { acc1 with wins := acc1.wins + 1
                  totalProfitLoss := acc1.totalProfitLoss + orZero rec.profitLoss
                  completedWager := acc1.completedWager + wager }
  | WasCorrect.wFalse =>
      { acc1 with losses := acc1.losses + 1
                  totalProfitLoss := acc1.totalProfitLoss + orZero rec.profitLoss
                  completedWager := acc1.completedWager + wager }
  | _ => { acc1 with pendingBets := acc1.pendingBets + 1 }

/-- The whole first pass of `updateSummary` over the recommendation
list. -/
def overallPass (recs : List BetRecord) : OverallAcc :=
  recs.foldl overallStep OverallAcc.init

/-- Accumulator of the second (cohort) pass of `updateSummary`
(lines 301-315): one such accumulator is kept for the top-picks
cohort and one for the other-bets cohort. -/
structure CohortAcc where
  count : ℕ
  wagered : ℚ
  wins : ℕ
  losses : ℕ
  pending : ℕ
  profitLoss : ℚ
  completedWager : ℚ
deriving DecidableEq, Repr

/-- The all-zero initial cohort accumulator. -/
def CohortAcc.init : CohortAcc :=
  { count := 0, wagered := 0, wins := 0, losses := 0, pending := 0
    profitLoss := 0, completedWager := 0 }

/-- One iteration of the second `recommendations.forEach` in
`updateSummary` (lines 317-347), restricted to the cohort the record
belongs to: `isCompleted` is `wasCorrect !== null`, `isWin` is
`wasCorrect === true`, `isLoss` is `wasCorrect === false`; count and
wager are always accumulated; a completed record adds to
`completedWager` and `profitLoss` and increments `wins` or `losses`
when it is a win or a loss; a non-completed record is pending. -/
def cohortStep (acc : CohortAcc) (rec : BetRecord) : CohortAcc :=
  let wager := orZero rec.recommendedWager
  let profitLoss := orZero rec.profitLoss
  let acc1 := { acc with count := acc.count + 1, wagered := acc.wagered + wager }
  if rec.wasCorrect ≠ WasCorrect.wNull then
    let acc2 := { acc1 with completedWager := acc1.completedWager + wager
                            profitLoss := acc1.profitLoss + profitLoss }
    if rec.wasCorrect = WasCorrect.wTrue then { acc2 with wins := acc2.wins + 1 }
    else if rec.wasCorrect = WasCorrect.wFalse then { acc2 with losses := acc2.losses + 1 }
    else acc2
  else { acc1 with pending := acc1.pending + 1 }

/-- The pair of cohort accumulators built by the second pass. -/
structure CohortPair where
  topPicks : CohortAcc
  otherBets : CohortAcc
deriving DecidableEq, Repr

/-- Initial pair of all-zero cohort accumulators. -/
def CohortPair.init : CohortPair :=
  { topPicks := CohortAcc.init, otherBets := CohortAcc.init }

/-- One iteration of the second pass: route the record to the
top-picks accumulator when `isTopPick`, to the other-bets
accumulator otherwise. -/
def cohortsStep (p : CohortPair) (rec : BetRecord) : CohortPair :=
  if rec.isTopPick then { p with topPicks := cohortStep p.topPicks rec }
  else { p with otherBets := cohortStep p.otherBets rec }

/-- The whole second pass of `updateSummary` over the recommendation
list. -/
def cohortsPass (recs : List BetRecord) : CohortPair :=
  recs.foldl cohortsStep CohortPair.init

/-- The overall pending wager derived in `updateSummary` (line 297):
`Math.max(0, totalWagered - completedWager)`. -/
def overallPendingWager (recs : List BetRecord) : ℚ :=
  max 0 ((overallPass recs).totalWagered - (overallPass recs).completedWager)

/-- The top-picks pending wager derived in `updateSummary`
(line 373): `Math.max(0, topPicksWagered - topPicksCompletedWager)`. -/
def topPicksPendingWager (recs : List BetRecord) : ℚ :=
  max 0 ((cohortsPass recs).topPicks.wagered - (cohortsPass recs).topPicks.completedWager)

/-- The other-bets pending wager derived in `updateSummary`
(line 360): `Math.max(0, otherBetsWagered - otherBetsCompletedWager)`. -/
def otherBetsPendingWager (recs : List BetRecord) : ℚ :=
  max 0 ((cohortsPass recs).otherBets.wagered - (cohortsPass recs).otherBets.completedWager)

/-- The pre-aggregated all-time performance snapshot returned by
`GET /api/analytics/performance` and consumed by `updateSummary`
(lines 224-228) and `loadPerformanceMetricsInternal` (lines 400-460).
All numeric fields are modelled as present rationals; the source's
`x || 0` defaulting is the identity on present numbers. -/
structure Snapshot where
  totalBets : ℚ
  totalWager : ℚ
  totalProfitLoss : ℚ
  winRate : ℚ
  topPicksCount : ℚ
  topPicksWager : ℚ
  topPicksProfitLoss : ℚ
  topPicksWinRate : ℚ
deriving DecidableEq, Repr

/-- The fixed starting bankroll in `updateSummary` (line 224). -/
def startingBankroll : ℚ := 10000

/-- `currentBankroll` in `updateSummary` (line 225):
`startingBankroll + data.totalProfitLoss`. -/
def currentBankroll (d : Snapshot) : ℚ :=
  startingBankroll + d.totalProfitLoss

/-- The header all-time ROI in `updateSummary` (line 228):
`((currentBankroll - startingBankroll) / startingBankroll) * 100`. -/
def headerOverallROI (d : Snapshot) : ℚ :=
  (currentBankroll d - startingBankroll) / startingBankroll * 100

/-- The values derived by `loadPerformanceMetricsInternal`
(lines 403-460) for the all-time summary panel. -/
structure AllTimePanel where
  totalWins : ℤ
  totalLosses : ℚ
  roi : ℚ
  winRate : ℚ
  topPicksWins : ℤ
  topPicksRoi : ℚ
  topPicksWinRate : ℚ
  otherBetsCount : ℚ
  otherBetsWager : ℚ
  otherBetsPL : ℚ
  otherBetsWins : ℤ
  otherBetsRoi : ℚ
  otherBetsWinRate : ℚ
deriving DecidableEq, Repr

/-- The all-time panel computation of `loadPerformanceMetricsInternal`
(lines 403-460), transcribed: `totalWins = Math.round(winRate *
totalBets)`; overall ROI and win rate via `calculateROI(totalPL,
totalWager)` and `calculateWinRate(totalWins, totalBets)`; top-picks
wins from the top-picks snapshot; the other-bets cohort by
subtraction of the two snapshots. -/
def allTimePanel (d : Snapshot) : AllTimePanel :=
  let totalWins : ℤ := jsRound (d.winRate * d.totalBets)
  let topPicksWins : ℤ := jsRound (d.topPicksWinRate * d.topPicksCount)
  let otherBetsCount : ℚ := d.totalBets - d.topPicksCount
  let otherBetsWager : ℚ := d.totalWager - d.topPicksWager
  let otherBetsPL : ℚ := d.totalProfitLoss - d.topPicksProfitLoss
  let otherBetsWins : ℤ := totalWins - topPicksWins
  { totalWins := totalWins
    totalLosses := d.totalBets - (totalWins : ℚ)
    roi := calculateROI d.totalProfitLoss d.totalWager
    winRate := calculateWinRate (totalWins : ℚ) d.totalBets
    topPicksWins := topPicksWins
    topPicksRoi := calculateROI d.topPicksProfitLoss d.topPicksWager
    topPicksWinRate := calculateWinRate (topPicksWins : ℚ) d.topPicksCount
    otherBetsCount := otherBetsCount
    otherBetsWager := otherBetsWager
    otherBetsPL := otherBetsPL
    otherBetsWins := otherBetsWins
    otherBetsRoi := calculateROI otherBetsPL otherBetsWager
    otherBetsWinRate := calculateWinRate (otherBetsWins : ℚ) otherBetsCount }

/-! ### Per-record contributions of the two passes

Each accumulator field of the two passes grows by a fixed per-record
amount; expressing the folds as sums of these contributions is the
backbone of the aggregate proofs. -/

/-- The wager a record contributes: `rec.recommendedWager || 0`. -/
def wagerOf (r : BetRecord) : ℚ := orZero r.recommendedWager

/-- The profit/loss a record contributes: `rec.profitLoss || 0`. -/
def plOf (r : BetRecord) : ℚ := orZero r.profitLoss

/-- Contribution of a record to a `wins` counter (both passes):
`1` exactly when `wasCorrect === true`. -/
def winContrib (r : BetRecord) : ℕ :=
  if r.wasCorrect = WasCorrect.wTrue then 1 else 0

/-- Contribution of a record to a `losses` counter (both passes):
`1` exactly when `wasCorrect === false`. -/
def lossContrib (r : BetRecord) : ℕ :=
  if r.wasCorrect = WasCorrect.wFalse then 1 else 0

/-- Contribution to `pendingBets` in the overall pass: `1` unless
`wasCorrect` is `true` or `false`. -/
def overallPendingContrib (r : BetRecord) : ℕ :=
  match r.wasCorrect with
  | WasCorrect.wTrue => 0
  | WasCorrect.wFalse => 0
  | _ => 1

/-- Contribution to `completedWager` in the overall pass: the wager,
when `wasCorrect` is `true` or `false`. -/
def overallCompletedContrib (r : BetRecord) : ℚ :=
  match r.wasCorrect with
  | WasCorrect.wTrue => wagerOf r
  | WasCorrect.wFalse => wagerOf r
  | _ => 0

/-- Contribution to `totalProfitLoss` in the overall pass: the
profit/loss, when `wasCorrect` is `true` or `false`. -/
def overallPLContrib (r : BetRecord) : ℚ :=
  match r.wasCorrect with
  | WasCorrect.wTrue => plOf r
  | WasCorrect.wFalse => plOf r
  | _ => 0

/-- Contribution to `pending` in the cohort pass: `1` exactly when
`wasCorrect === null`. -/
def cohortPendingContrib (r : BetRecord) : ℕ :=
  if r.wasCorrect = WasCorrect.wNull then 1 else 0

/-- Contribution to `completedWager` in the cohort pass: the wager,
when `wasCorrect !== null`. -/
def cohortCompletedContrib (r : BetRecord) : ℚ :=
  if r.wasCorrect = WasCorrect.wNull then 0 else wagerOf r

/-- Contribution to `profitLoss` in the cohort pass: the profit/loss,
when `wasCorrect !== null`. -/
def cohortPLContrib (r : BetRecord) : ℚ :=
  if r.wasCorrect = WasCorrect.wNull then 0 else plOf r

/-- A left fold whose effect on a projection `g` is to add a fixed
per-element contribution `f` yields `g` of the start plus the sum of
contributions. -/
lemma foldl_proj_add {α σ M : Type} [AddCommMonoid M] (step : σ → α → σ)
    (g : σ → M) (f : α → M) (h : ∀ acc r, g (step acc r) = g acc + f r)
    (l : List α) (a : σ) : g (l.foldl step a) = g a + (l.map f).sum := by
  induction l generalizing a with
  | nil => simp
  | cons r rs ih =>
      simp only [List.foldl_cons, List.map_cons, List.sum_cons]
      rw [ih, h, add_assoc]

/-- Summing a function over the sublist satisfying `p` and over the
sublist refuting `p` together give the sum over the whole list. -/
lemma sum_map_filter_split {α M : Type} [AddCommMonoid M] (p : α → Bool)
    (f : α → M) (l : List α) :
    ((l.filter p).map f).sum + ((l.filter (fun a => !p a)).map f).sum
      = (l.map f).sum := by
  induction l with
  | nil => simp
  | cons r rs ih =>
      by_cases hp : p r
      · simp only [List.filter_cons, hp, if_true, Bool.not_true, if_false,
          List.map_cons, List.sum_cons, Bool.false_eq_true, ite_false, ite_true]
        rw [add_assoc, ih]
      · simp only [List.filter_cons, Bool.eq_false_iff.mpr hp, Bool.not_false,
          if_true, if_false, List.map_cons, List.sum_cons, Bool.false_eq_true,
          ite_false, ite_true]
        rw [add_left_comm, ih]

/-- Splitting a list by a Boolean predicate preserves total length. -/
lemma length_filter_split {α : Type} (p : α → Bool) (l : List α) :
    (l.filter p).length + (l.filter (fun a => !p a)).length = l.length := by
  induction l with
  | nil => simp
  | cons r rs ih =>
      by_cases hp : p r
      · simp only [List.filter_cons, hp, Bool.not_true, if_true, if_false,
          List.length_cons, Bool.false_eq_true, ite_false, ite_true]
        omega
      · simp only [List.filter_cons, Bool.eq_false_iff.mpr hp, Bool.not_false,
          if_true, if_false, List.length_cons, Bool.false_eq_true, ite_false,
          ite_true]
        omega

lemma overallStep_totalWagered (acc : OverallAcc) (r : BetRecord) :
    (overallStep acc r).totalWagered = acc.totalWagered + wagerOf r := by
  rcases r with ⟨w, pl, wc, tp⟩
  cases wc <;> rfl

lemma overallStep_wins (acc : OverallAcc) (r : BetRecord) :
    (overallStep acc r).wins = acc.wins + winContrib r := by
  rcases r with ⟨w, pl, wc, tp⟩
  cases wc <;> simp [overallStep, winContrib]

lemma overallStep_losses (acc : OverallAcc) (r : BetRecord) :
    (overallStep acc r).losses = acc.losses + lossContrib r := by
  rcases r with ⟨w, pl, wc, tp⟩
  cases wc <;> simp [overallStep, lossContrib]

lemma overallStep_pendingBets (acc : OverallAcc) (r : BetRecord) :
    (overallStep acc r).pendingBets = acc.pendingBets + overallPendingContrib r := by
  rcases r with ⟨w, pl, wc, tp⟩
  cases wc <;> simp [overallStep, overallPendingContrib]

lemma overallStep_totalProfitLoss (acc : OverallAcc) (r : BetRecord) :
    (overallStep acc r).totalProfitLoss = acc.totalProfitLoss + overallPLContrib r := by
  rcases r with ⟨w, pl, wc, tp⟩
  cases wc <;> simp [overallStep, overallPLContrib, plOf]

lemma overallStep_completedWager (acc : OverallAcc) (r : BetRecord) :
    (overallStep acc r).completedWager = acc.completedWager + overallCompletedContrib r := by
  rcases r with ⟨w, pl, wc, tp⟩
  cases wc <;> simp [overallStep, overallCompletedContrib, wagerOf]

lemma overallPass_totalWagered (recs : List BetRecord) :
    (overallPass recs).totalWagered = (recs.map wagerOf).sum := by
  simpa [OverallAcc.init] using
    foldl_proj_add overallStep (fun a => a.totalWagered) wagerOf
      overallStep_totalWagered recs OverallAcc.init

lemma overallPass_wins (recs : List BetRecord) :
    (overallPass recs).wins = (recs.map winContrib).sum := by
  simpa [OverallAcc.init] using
    foldl_proj_add overallStep (fun a => a.wins) winContrib
      overallStep_wins recs OverallAcc.init

lemma overallPass_losses (recs : List BetRecord) :
    (overallPass recs).losses = (recs.map lossContrib).sum := by
  simpa [OverallAcc.init] using
    foldl_proj_add overallStep (fun a => a.losses) lossContrib
      overallStep_losses recs OverallAcc.init

lemma overallPass_pendingBets (recs : List BetRecord) :
    (overallPass recs).pendingBets = (recs.map overallPendingContrib).sum := by
  simpa [OverallAcc.init] using
    foldl_proj_add overallStep (fun a => a.pendingBets) overallPendingContrib
      overallStep_pendingBets recs OverallAcc.init

lemma overallPass_totalProfitLoss (recs : List BetRecord) :
    (overallPass recs).totalProfitLoss = (recs.map overallPLContrib).sum := by
  simpa [OverallAcc.init] using
    foldl_proj_add overallStep (fun a => a.totalProfitLoss) overallPLContrib
      overallStep_totalProfitLoss recs OverallAcc.init

lemma overallPass_completedWager (recs : List BetRecord) :
    (overallPass recs).completedWager = (recs.map overallCompletedContrib).sum := by
  simpa [OverallAcc.init] using
    foldl_proj_add overallStep (fun a => a.completedWager) overallCompletedContrib
      overallStep_completedWager recs OverallAcc.init

lemma cohortStep_count (acc : CohortAcc) (r : BetRecord) :
    (cohortStep acc r).count = acc.count + 1 := by
  rcases r with ⟨w, pl, wc, tp⟩
  cases wc <;> simp [cohortStep]

lemma cohortStep_wagered (acc : CohortAcc) (r : BetRecord) :
    (cohortStep acc r).wagered = acc.wagered + wagerOf r := by
  rcases r with ⟨w, pl, wc, tp⟩
  cases wc <;> simp [cohortStep, wagerOf]

lemma cohortStep_wins (acc : CohortAcc) (r : BetRecord) :
    (cohortStep acc r).wins = acc.wins + winContrib r := by
  rcases r with ⟨w, pl, wc, tp⟩
  cases wc <;> simp [cohortStep, winContrib]

lemma cohortStep_losses (acc : CohortAcc) (r : BetRecord) :
    (cohortStep acc r).losses = acc.losses + lossContrib r := by
  rcases r with ⟨w, pl, wc, tp⟩
  cases wc <;> simp [cohortStep, lossContrib]

lemma cohortStep_pending (acc : CohortAcc) (r : BetRecord) :
    (cohortStep acc r).pending = acc.pending + cohortPendingContrib r := by
  rcases r with ⟨w, pl, wc, tp⟩
  cases wc <;> simp [cohortStep, cohortPendingContrib]

lemma cohortStep_profitLoss (acc : CohortAcc) (r : BetRecord) :
    (cohortStep acc r).profitLoss = acc.profitLoss + cohortPLContrib r := by
  rcases r with ⟨w, pl, wc, tp⟩
  cases wc <;> simp [cohortStep, cohortPLContrib, plOf]

lemma cohortStep_completedWager (acc : CohortAcc) (r : BetRecord) :
    (cohortStep acc r).completedWager = acc.completedWager + cohortCompletedContrib r := by
  rcases r with ⟨w, pl, wc, tp⟩
  cases wc <;> simp [cohortStep, cohortCompletedContrib, wagerOf]

/-- The top-picks sublist, as `displayRecommendations` also filters it
(line 53). -/
def topPicksOf (recs : List BetRecord) : List BetRecord :=
  recs.filter (fun r => r.isTopPick)

/-- The other-bets sublist, as `displayRecommendations` also filters
it (line 54). -/
def otherBetsOf (recs : List BetRecord) : List BetRecord :=
  recs.filter (fun r => !r.isTopPick)

lemma cohortsFold_topPicks (l : List BetRecord) (p : CohortPair) :
    (l.foldl cohortsStep p).topPicks
      = (l.filter (fun r => r.isTopPick)).foldl cohortStep p.topPicks := by
  induction l generalizing p with
  | nil => simp
  | cons r rs ih =>
      by_cases h : r.isTopPick <;>
        simp [List.filter_cons, h, ih, cohortsStep]

lemma cohortsFold_otherBets (l : List BetRecord) (p : CohortPair) :
    (l.foldl cohortsStep p).otherBets
      = (l.filter (fun r => !r.isTopPick)).foldl cohortStep p.otherBets := by
  induction l generalizing p with
  | nil => simp
  | cons r rs ih =>
      by_cases h : r.isTopPick <;>
        simp [List.filter_cons, h, ih, cohortsStep]

lemma cohortsPass_topPicks (recs : List BetRecord) :
    (cohortsPass recs).topPicks = (topPicksOf recs).foldl cohortStep CohortAcc.init := by
  simpa [topPicksOf, CohortPair.init] using
    cohortsFold_topPicks recs CohortPair.init

lemma cohortsPass_otherBets (recs : List BetRecord) :
    (cohortsPass recs).otherBets = (otherBetsOf recs).foldl cohortStep CohortAcc.init := by
  simpa [otherBetsOf, CohortPair.init] using
    cohortsFold_otherBets recs CohortPair.init

lemma cohortFold_count (l : List BetRecord) :
    (l.foldl cohortStep CohortAcc.init).count = l.length := by
  have h := foldl_proj_add cohortStep (fun a => a.count) (fun _ => (1 : ℕ))
    (fun acc r => cohortStep_count acc r) l CohortAcc.init
  simpa [CohortAcc.init] using h

lemma cohortFold_wagered (l : List BetRecord) :
    (l.foldl cohortStep CohortAcc.init).wagered = (l.map wagerOf).sum := by
  simpa [CohortAcc.init] using
    foldl_proj_add cohortStep (fun a => a.wagered) wagerOf
      cohortStep_wagered l CohortAcc.init

lemma cohortFold_wins (l : List BetRecord) :
    (l.foldl cohortStep CohortAcc.init).wins = (l.map winContrib).sum := by
  simpa [CohortAcc.init] using
    foldl_proj_add cohortStep (fun a => a.wins) winContrib
      cohortStep_wins l CohortAcc.init

lemma cohortFold_losses (l : List BetRecord) :
    (l.foldl cohortStep CohortAcc.init).losses = (l.map lossContrib).sum := by
  simpa [CohortAcc.init] using
    foldl_proj_add cohortStep (fun a => a.losses) lossContrib
      cohortStep_losses l CohortAcc.init

lemma cohortFold_pending (l : List BetRecord) :
    (l.foldl cohortStep CohortAcc.init).pending = (l.map cohortPendingContrib).sum := by
  simpa [CohortAcc.init] using
    foldl_proj_add cohortStep (fun a => a.pending) cohortPendingContrib
      cohortStep_pending l CohortAcc.init

lemma cohortFold_profitLoss (l : List BetRecord) :
    (l.foldl cohortStep CohortAcc.init).profitLoss = (l.map cohortPLContrib).sum := by
  simpa [CohortAcc.init] using
    foldl_proj_add cohortStep (fun a => a.profitLoss) cohortPLContrib
      cohortStep_profitLoss l CohortAcc.init

lemma cohortFold_completedWager (l : List BetRecord) :
    (l.foldl cohortStep CohortAcc.init).completedWager
      = (l.map cohortCompletedContrib).sum := by
  simpa [CohortAcc.init] using
    foldl_proj_add cohortStep (fun a => a.completedWager) cohortCompletedContrib
      cohortStep_completedWager l CohortAcc.init

/-- On records whose `wasCorrect` is not `undefined`, the two passes
agree on what counts as pending. -/
lemma pendingContrib_agree {r : BetRecord}
    (h : r.wasCorrect ≠ WasCorrect.wUndefined) :
    overallPendingContrib r = cohortPendingContrib r := by
  rcases r with ⟨w, pl, wc, tp⟩
  cases wc <;> simp_all [overallPendingContrib, cohortPendingContrib]

/-- On records whose `wasCorrect` is not `undefined`, the two passes
agree on the profit/loss contribution. -/
lemma plContrib_agree {r : BetRecord}
    (h : r.wasCorrect ≠ WasCorrect.wUndefined) :
    overallPLContrib r = cohortPLContrib r := by
  rcases r with ⟨w, pl, wc, tp⟩
  cases wc <;> simp_all [overallPLContrib, cohortPLContrib]

/-- On records whose `wasCorrect` is not `undefined`, the two passes
agree on the completed-wager contribution. -/
lemma completedContrib_agree {r : BetRecord}
    (h : r.wasCorrect ≠ WasCorrect.wUndefined) :
    overallCompletedContrib r = cohortCompletedContrib r := by
  rcases r with ⟨w, pl, wc, tp⟩
  cases wc <;> simp_all [overallCompletedContrib, cohortCompletedContrib]

/-- A resolved winning top pick: wager `100`, profit `50`. -/
def recWinTop : BetRecord :=
  { recommendedWager := some 100, profitLoss := some 50
    wasCorrect := WasCorrect.wTrue, isTopPick := true }

/-- A resolved losing non-top pick: wager `100`, loss `-100`. -/
def recLossOther : BetRecord :=
  { recommendedWager := some 100, profitLoss := some (-100)
    wasCorrect := WasCorrect.wFalse, isTopPick := false }

/-- A pending non-top pick: wager `50`, no profit/loss yet. -/
def recPendingOther : BetRecord :=
  { recommendedWager := some 50, profitLoss := none
    wasCorrect := WasCorrect.wNull, isTopPick := false }

/-- Scenario A of the spec: one winning top pick, one losing other
bet, one pending other bet. -/
def scenarioA : List BetRecord := [recWinTop, recLossOther, recPendingOther]

end Prophet

namespace Prophet

/-- C1: for every list of bet records whose `wasCorrect` is `true`,
`false` or `null`, the weekly aggregation of `updateSummary`
partitions exactly: the overall value of each accumulated field
(count, wagered, wins, losses, pending, profit/loss, completed wager)
equals the top-picks value plus the other-bets value of that field. -/
theorem updateSummary_partition_law (recs : List BetRecord)
    (h : ∀ r ∈ recs, r.wasCorrect ≠ WasCorrect.wUndefined) :
    recs.length = (cohortsPass recs).topPicks.count + (cohortsPass recs).otherBets.count
    ∧ (overallPass recs).totalWagered
        = (cohortsPass recs).topPicks.wagered + (cohortsPass recs).otherBets.wagered
    ∧ (overallPass recs).wins
        = (cohortsPass recs).topPicks.wins + (cohortsPass recs).otherBets.wins
    ∧ (overallPass recs).losses
        = (cohortsPass recs).topPicks.losses + (cohortsPass recs).otherBets.losses
    ∧ (overallPass recs).pendingBets
        = (cohortsPass recs).topPicks.pending + (cohortsPass recs).otherBets.pending
    ∧ (overallPass recs).totalProfitLoss
        = (cohortsPass recs).topPicks.profitLoss + (cohortsPass recs).otherBets.profitLoss
    ∧ (overallPass recs).completedWager
        = (cohortsPass recs).topPicks.completedWager
          + (cohortsPass recs).otherBets.completedWager := by
  have hTop := cohortsPass_topPicks recs
  have hOther := cohortsPass_otherBets recs
  refine ⟨?_, ?_, ?_, ?_, ?_, ?_, ?_⟩
  · rw [hTop, hOther, cohortFold_count, cohortFold_count, topPicksOf, otherBetsOf]
    exact (length_filter_split (fun r => r.isTopPick) recs).symm
  · rw [overallPass_totalWagered, hTop, hOther, cohortFold_wagered,
      cohortFold_wagered, topPicksOf, otherBetsOf]
    exact (sum_map_filter_split (fun r => r.isTopPick) wagerOf recs).symm
  · rw [overallPass_wins, hTop, hOther, cohortFold_wins, cohortFold_wins,
      topPicksOf, otherBetsOf]
    exact (sum_map_filter_split (fun r => r.isTopPick) winContrib recs).symm
  · rw [overallPass_losses, hTop, hOther, cohortFold_losses, cohortFold_losses,
      topPicksOf, otherBetsOf]
    exact (sum_map_filter_split (fun r => r.isTopPick) lossContrib recs).symm
  · rw [overallPass_pendingBets, hTop, hOther, cohortFold_pending,
      cohortFold_pending, topPicksOf, otherBetsOf,
      List.map_congr_left (fun r hr => pendingContrib_agree (h r hr))]
    exact (sum_map_filter_split (fun r => r.isTopPick) cohortPendingContrib recs).symm
  · rw [overallPass_totalProfitLoss, hTop, hOther, cohortFold_profitLoss,
      cohortFold_profitLoss, topPicksOf, otherBetsOf,
      List.map_congr_left (fun r hr => plContrib_agree (h r hr))]
    exact (sum_map_filter_split (fun r => r.isTopPick) cohortPLContrib recs).symm
  · rw [overallPass_completedWager, hTop, hOther, cohortFold_completedWager,
      cohortFold_completedWager, topPicksOf, otherBetsOf,
      List.map_congr_left (fun r hr => completedContrib_agree (h r hr))]
    exact (sum_map_filter_split (fun r => r.isTopPick) cohortCompletedContrib recs).symm

/-- Witness for C1: the partition law instantiated at Scenario A. -/
theorem updateSummary_partition_law_witness :
    (∀ r ∈ scenarioA, r.wasCorrect ≠ WasCorrect.wUndefined)
    ∧ ((overallPass scenarioA).totalWagered
        = (cohortsPass scenarioA).topPicks.wagered
          + (cohortsPass scenarioA).otherBets.wagered) :=
  ⟨by decide, (updateSummary_partition_law scenarioA (by decide)).2.1⟩

/-- C2: `calculateROI` returns `(p / w) * 100` whenever the wager is
nonzero and `0` when the wager is zero, for every profit/loss; being
a total function of its rational arguments, it never fails. -/
theorem calculateROI_spec (p w : ℚ) :
    (w ≠ 0 → calculateROI p w = p / w * 100) ∧ calculateROI p 0 = 0 := by
  constructor
  · intro hw
    simp [calculateROI, hw]
  · simp [calculateROI]

/-- Witness for C2: the ROI equations at concrete inputs. -/
theorem calculateROI_spec_witness :
    calculateROI 50 200 = 50 / 200 * 100 ∧ calculateROI 7 0 = 0 :=
  ⟨(calculateROI_spec 50 200).1 (by norm_num), (calculateROI_spec 7 0).2⟩

/-- C3: `calculateWinRate` on the resolved-bet denominator
`wins + losses` returns `wins / (wins + losses)` when that sum is
positive and `0` when the supplied denominator is zero; in general it
returns `wins / totalDecided` for nonzero `totalDecided` and `0`
otherwise. -/
theorem calculateWinRate_spec (wins losses total : ℚ) :
    (0 ≤ wins → 0 ≤ losses → 0 < wins + losses →
        calculateWinRate wins (wins + losses) = wins / (wins + losses))
    ∧ calculateWinRate wins 0 = 0
    ∧ (total ≠ 0 → calculateWinRate wins total = wins / total) := by
  refine ⟨fun _ _ hpos => ?_, ?_, fun htot => ?_⟩
  · simp [calculateWinRate, ne_of_gt hpos]
  · simp [calculateWinRate]
  · simp [calculateWinRate, htot]

/-- Witness for C3: the win-rate equations at concrete inputs. -/
theorem calculateWinRate_spec_witness :
    calculateWinRate 3 (3 + 2) = 3 / (3 + 2)
    ∧ calculateWinRate 3 0 = 0
    ∧ calculateWinRate 3 4 = 3 / 4 :=
  ⟨(calculateWinRate_spec 3 2 4).1 (by norm_num) (by norm_num) (by norm_num),
   (calculateWinRate_spec 3 2 4).2.1,
   (calculateWinRate_spec 3 2 4).2.2 (by norm_num)⟩

/-- C4 counterexample: at value `0` the all-time profit/loss
colouring (line 432, `totalPL >= 0 ? 'positive' : 'negative'`) adds
`positive`, while `classifySign 0` is `neutral`, so the claim that
both colouring contexts follow `classifySign` fails at `0`. -/
theorem sign_coloring_counterexample :
    allTimePLColor 0 = SignClass.positive
    ∧ classifySign 0 = SignClass.neutral
    ∧ allTimePLColor 0 ≠ classifySign 0 := by
  have h1 : allTimePLColor 0 = SignClass.positive := by norm_num [allTimePLColor]
  have h2 : classifySign 0 = SignClass.neutral := by norm_num [classifySign]
  refine ⟨h1, h2, ?_⟩
  rw [h1, h2]
  decide

/-- C4 amended: the weekly summary colouring follows `classifySign`
for every value; the all-time summary colouring follows
`classifySign` for every nonzero value but classifies zero as
`positive` instead of `neutral`. -/
theorem sign_coloring_spec (v : ℚ) :
    weeklyPLColor v = classifySign v
    ∧ (v ≠ 0 → allTimePLColor v = classifySign v)
    ∧ allTimePLColor 0 = SignClass.positive := by
  refine ⟨rfl, fun hv => ?_, by norm_num [allTimePLColor]⟩
  by_cases h : 0 < v
  · simp [allTimePLColor, classifySign, h, le_of_lt h]
  · have hlt : v < 0 := lt_of_le_of_ne (not_lt.mp h) hv
    simp [allTimePLColor, classifySign, not_le.mpr hlt, asymm hlt, hlt]

/-- Witness for C4: both colourings agree with `classifySign` at the
nonzero value `-3`. -/
theorem sign_coloring_spec_witness :
    weeklyPLColor (-3) = classifySign (-3)
    ∧ allTimePLColor (-3) = classifySign (-3) :=
  ⟨(sign_coloring_spec (-3)).1, (sign_coloring_spec (-3)).2.1 (by norm_num)⟩

/-- C5: the all-time summary panel is a function of the server
snapshot alone (`allTimePanel` consumes no recommendation list):
`totalWins = round(winRate * totalBets)`, the panel win rate uses
`totalBets` as denominator, and the other-bets cohort is obtained by
subtraction of the top-picks snapshot from the overall snapshot. -/
theorem allTimePanel_spec (d : Snapshot) :
    (allTimePanel d).totalWins = jsRound (d.winRate * d.totalBets)
    ∧ (allTimePanel d).winRate
        = calculateWinRate ((allTimePanel d).totalWins : ℚ) d.totalBets
    ∧ (allTimePanel d).otherBetsCount = d.totalBets - d.topPicksCount
    ∧ (allTimePanel d).otherBetsWager = d.totalWager - d.topPicksWager
    ∧ (allTimePanel d).otherBetsPL = d.totalProfitLoss - d.topPicksProfitLoss
    ∧ (allTimePanel d).otherBetsWins
        = (allTimePanel d).totalWins - (allTimePanel d).topPicksWins :=
  ⟨rfl, rfl, rfl, rfl, rfl, rfl⟩

/-- C6 counterexample: on Scenario A the weekly overall ROI that the
code derives, `calculateROI(totalProfitLoss, totalWagered)` =
`calculateROI(-50, 250)`, is `-20`, not the claimed `-25`. -/
theorem scenarioA_overall_roi_counterexample :
    calculateROI (overallPass scenarioA).totalProfitLoss
        (overallPass scenarioA).totalWagered = -20
    ∧ (-20 : ℚ) ≠ -25 := by
  constructor
  · simp [overallPass, overallStep, scenarioA, recWinTop, recLossOther,
      recPendingOther, orZero, OverallAcc.init, calculateROI]
    norm_num
  · norm_num

/-- C6 amended: on Scenario A the weekly aggregation yields
overall = count 3, wagered 250, wins 1, losses 1, pending 1,
profit/loss -50, completed wager 200, pending wager 50, ROI -20
(against total wagered, not the claimed -25), win rate 1/2, and
topPicks = count 1, wagered 100, wins 1, losses 0, pending 0,
profit/loss 50, ROI 50, win rate 1. -/
theorem scenarioA_spec :
    scenarioA.length = 3
    ∧ (overallPass scenarioA).totalWagered = 250
    ∧ (overallPass scenarioA).wins = 1
    ∧ (overallPass scenarioA).losses = 1
    ∧ (overallPass scenarioA).pendingBets = 1
    ∧ (overallPass scenarioA).totalProfitLoss = -50
    ∧ (overallPass scenarioA).completedWager = 200
    ∧ overallPendingWager scenarioA = 50
    ∧ calculateROI (overallPass scenarioA).totalProfitLoss
        (overallPass scenarioA).totalWagered = -20
    ∧ calculateWinRate ((overallPass scenarioA).wins : ℚ)
        (((overallPass scenarioA).wins : ℚ) + ((overallPass scenarioA).losses : ℚ))
        = 1 / 2
    ∧ (cohortsPass scenarioA).topPicks.count = 1
    ∧ (cohortsPass scenarioA).topPicks.wagered = 100
    ∧ (cohortsPass scenarioA).topPicks.wins = 1
    ∧ (cohortsPass scenarioA).topPicks.losses = 0
    ∧ (cohortsPass scenarioA).topPicks.pending = 0
    ∧ (cohortsPass scenarioA).topPicks.profitLoss = 50
    ∧ calculateROI (cohortsPass scenarioA).topPicks.profitLoss
        (cohortsPass scenarioA).topPicks.wagered = 50
    ∧ calculateWinRate ((cohortsPass scenarioA).topPicks.wins : ℚ)
        (((cohortsPass scenarioA).topPicks.wins : ℚ)
          + ((cohortsPass scenarioA).topPicks.losses : ℚ)) = 1 := by
  simp [scenarioA, recWinTop, recLossOther, recPendingOther, overallPass,
    overallStep, cohortsPass, cohortsStep, cohortStep, orZero, OverallAcc.init,
    CohortPair.init, CohortAcc.init, overallPendingWager, calculateROI,
    calculateWinRate]
  norm_num

/-- C7: for every record list with three-valued `wasCorrect`, each
cohort's derived pending wager equals
`max(0, wagered - completedWager)` and is therefore never negative. -/
theorem pendingWager_spec (recs : List BetRecord)
    (_h : ∀ r ∈ recs, r.wasCorrect ≠ WasCorrect.wUndefined) :
    (overallPendingWager recs
        = max 0 ((overallPass recs).totalWagered - (overallPass recs).completedWager)
      ∧ 0 ≤ overallPendingWager recs)
    ∧ (topPicksPendingWager recs
        = max 0 ((cohortsPass recs).topPicks.wagered
            - (cohortsPass recs).topPicks.completedWager)
      ∧ 0 ≤ topPicksPendingWager recs)
    ∧ (otherBetsPendingWager recs
        = max 0 ((cohortsPass recs).otherBets.wagered
            - (cohortsPass recs).otherBets.completedWager)
      ∧ 0 ≤ otherBetsPendingWager recs) :=
  ⟨⟨rfl, le_max_left 0 _⟩, ⟨rfl, le_max_left 0 _⟩, ⟨rfl, le_max_left 0 _⟩⟩

/-- Witness for C7: the pending-wager clamp at Scenario A. -/
theorem pendingWager_spec_witness :
    (∀ r ∈ scenarioA, r.wasCorrect ≠ WasCorrect.wUndefined)
    ∧ 0 ≤ overallPendingWager scenarioA
    ∧ 0 ≤ topPicksPendingWager scenarioA
    ∧ 0 ≤ otherBetsPendingWager scenarioA :=
  ⟨by decide, (pendingWager_spec scenarioA (by decide)).1.2,
   (pendingWager_spec scenarioA (by decide)).2.1.2,
   (pendingWager_spec scenarioA (by decide)).2.2.2⟩

/-- Summing two per-element functions separately equals summing their
pointwise sum. -/
lemma sum_map_add {α M : Type} [AddCommMonoid M] (f g : α → M) (l : List α) :
    (l.map (fun x => f x + g x)).sum = (l.map f).sum + (l.map g).sum := by
  induction l with
  | nil => simp
  | cons r rs ih =>
      simp only [List.map_cons, List.sum_cons, ih]
      exact add_add_add_comm _ _ _ _

/-- In the overall pass every record is counted exactly once among
wins, losses and pending. -/
lemma overall_contribs_sum_one (r : BetRecord) :
    winContrib r + lossContrib r + overallPendingContrib r = 1 := by
  rcases r with ⟨w, pl, wc, tp⟩
  cases wc <;> simp [winContrib, lossContrib, overallPendingContrib]

/-- In the cohort pass every record whose `wasCorrect` is not
`undefined` is counted exactly once among wins, losses and pending. -/
lemma cohort_contribs_sum_one {r : BetRecord}
    (h : r.wasCorrect ≠ WasCorrect.wUndefined) :
    winContrib r + lossContrib r + cohortPendingContrib r = 1 := by
  rcases r with ⟨w, pl, wc, tp⟩
  cases wc <;> simp_all [winContrib, lossContrib, cohortPendingContrib]

/-- C8: for every record list with three-valued `wasCorrect`, each of
the three weekly summaries satisfies
`wins + losses + pending = count` (the overall count being the list
length that the code displays); all four fields are natural numbers
by construction. -/
theorem cohort_internal_consistency (recs : List BetRecord)
    (h : ∀ r ∈ recs, r.wasCorrect ≠ WasCorrect.wUndefined) :
    (overallPass recs).wins + (overallPass recs).losses
        + (overallPass recs).pendingBets = recs.length
    ∧ (cohortsPass recs).topPicks.wins + (cohortsPass recs).topPicks.losses
        + (cohortsPass recs).topPicks.pending = (cohortsPass recs).topPicks.count
    ∧ (cohortsPass recs).otherBets.wins + (cohortsPass recs).otherBets.losses
        + (cohortsPass recs).otherBets.pending
        = (cohortsPass recs).otherBets.count := by
  refine ⟨?_, ?_, ?_⟩
  · rw [overallPass_wins, overallPass_losses, overallPass_pendingBets,
      ← sum_map_add winContrib lossContrib,
      ← sum_map_add (fun x => winContrib x + lossContrib x) overallPendingContrib,
      List.map_congr_left (fun r _ => overall_contribs_sum_one r)]
    simp
  · rw [cohortsPass_topPicks, topPicksOf, cohortFold_wins, cohortFold_losses,
      cohortFold_pending, cohortFold_count,
      ← sum_map_add winContrib lossContrib,
      ← sum_map_add (fun x => winContrib x + lossContrib x) cohortPendingContrib,
      List.map_congr_left
        (fun r hr => cohort_contribs_sum_one (h r (List.mem_of_mem_filter hr)))]
    simp
  · rw [cohortsPass_otherBets, otherBetsOf, cohortFold_wins, cohortFold_losses,
      cohortFold_pending, cohortFold_count,
      ← sum_map_add winContrib lossContrib,
      ← sum_map_add (fun x => winContrib x + lossContrib x) cohortPendingContrib,
      List.map_congr_left
        (fun r hr => cohort_contribs_sum_one (h r (List.mem_of_mem_filter hr)))]
    simp

/-- Witness for C8: internal consistency at Scenario A. -/
theorem cohort_internal_consistency_witness :
    (∀ r ∈ scenarioA, r.wasCorrect ≠ WasCorrect.wUndefined)
    ∧ (overallPass scenarioA).wins + (overallPass scenarioA).losses
        + (overallPass scenarioA).pendingBets = scenarioA.length :=
  ⟨by decide, (cohort_internal_consistency scenarioA (by decide)).1⟩

/-- A record whose `wasCorrect` field is absent (`undefined`). -/
def recUndef : BetRecord :=
  { recommendedWager := some 70, profitLoss := some 30
    wasCorrect := WasCorrect.wUndefined, isTopPick := true }

/-- C9: on a record whose `wasCorrect` is `undefined`, the overall
pass counts it as pending and leaves wins, losses, completed wager
and profit/loss untouched, while the cohort pass treats it as
completed: it adds the wager to `completedWager` and the profit/loss
to the cohort total without incrementing wins, losses or pending. -/
theorem undefined_wasCorrect_divergence (acc : OverallAcc) (cacc : CohortAcc)
    (r : BetRecord) (h : r.wasCorrect = WasCorrect.wUndefined) :
    (overallStep acc r).pendingBets = acc.pendingBets + 1
    ∧ (overallStep acc r).wins = acc.wins
    ∧ (overallStep acc r).losses = acc.losses
    ∧ (overallStep acc r).completedWager = acc.completedWager
    ∧ (overallStep acc r).totalProfitLoss = acc.totalProfitLoss
    ∧ (cohortStep cacc r).completedWager = cacc.completedWager + wagerOf r
    ∧ (cohortStep cacc r).profitLoss = cacc.profitLoss + plOf r
    ∧ (cohortStep cacc r).wins = cacc.wins
    ∧ (cohortStep cacc r).losses = cacc.losses
    ∧ (cohortStep cacc r).pending = cacc.pending := by
  rcases r with ⟨w, pl, wc, tp⟩
  have hw : wc = WasCorrect.wUndefined := h
  subst hw
  simp [overallStep, cohortStep, wagerOf, plOf]

/-- Witness for C9: the divergence at a concrete undefined-outcome
record, starting from the all-zero accumulators. -/
theorem undefined_wasCorrect_divergence_witness :
    recUndef.wasCorrect = WasCorrect.wUndefined
    ∧ (overallStep OverallAcc.init recUndef).pendingBets
        = OverallAcc.init.pendingBets + 1
    ∧ (cohortStep CohortAcc.init recUndef).completedWager
        = CohortAcc.init.completedWager + wagerOf recUndef
    ∧ (cohortStep CohortAcc.init recUndef).wins = CohortAcc.init.wins :=
  ⟨rfl,
   (undefined_wasCorrect_divergence OverallAcc.init CohortAcc.init recUndef rfl).1,
   (undefined_wasCorrect_divergence OverallAcc.init CohortAcc.init recUndef
     rfl).2.2.2.2.2.1,
   (undefined_wasCorrect_divergence OverallAcc.init CohortAcc.init recUndef
     rfl).2.2.2.2.2.2.2.1⟩

/-- A concrete all-time snapshot used to compare the two ROI
formulas. -/
def snapExample : Snapshot :=
  { totalBets := 10, totalWager := 1000, totalProfitLoss := 50, winRate := 1 / 2
    topPicksCount := 3, topPicksWager := 300, topPicksProfitLoss := 20
    topPicksWinRate := 1 / 3 }

/-- C10: the header all-time ROI of `updateSummary` is computed
against the fixed starting bankroll `10000` and equals
`totalProfitLoss / 100` for every snapshot, independent of
`totalWager`; on a concrete snapshot it differs from the panel ROI
`calculateROI(totalProfitLoss, totalWager)`. -/
theorem headerOverallROI_spec (d : Snapshot) :
    headerOverallROI d = d.totalProfitLoss / 100
    ∧ headerOverallROI snapExample = 1 / 2
    ∧ calculateROI snapExample.totalProfitLoss snapExample.totalWager = 5
    ∧ headerOverallROI snapExample
        ≠ calculateROI snapExample.totalProfitLoss snapExample.totalWager := by
  have hgen : ∀ e : Snapshot, headerOverallROI e = e.totalProfitLoss / 100 := by
    intro e
    unfold headerOverallROI currentBankroll startingBankroll
    ring
  have h1 : headerOverallROI snapExample = 1 / 2 := by
    rw [hgen snapExample]
    norm_num [snapExample]
  have h2 : calculateROI snapExample.totalProfitLoss snapExample.totalWager = 5 := by
    norm_num [calculateROI, snapExample]
  refine ⟨hgen d, h1, h2, ?_⟩
  rw [h1, h2]
  norm_num

end Prophet
